import Mathlib

/-!
Verification of the layered configuration accessor in
`src/config_profile/Config.py` (repository `avegancafe/config-profile`).

The module is shallowly embedded: each Python function or method becomes a
Lean function over explicit state.  The process environment and the merged
settings mapping are association lists; Python dictionaries are modelled so
that the most recent binding for a key shadows older ones.  Python string
methods (`upper`, `lower`, `replace(".", "_")`, substring `in`) are modelled
character-wise over `List Char`, which agrees with CPython on the ASCII keys
this module manipulates.  Python runtime exceptions are modelled with an
explicit error type and `Except`.
-/

namespace ConfigProfile

/-- Python `str.upper()` modelled character-wise (ASCII). -/
def pyUpper (s : String) : String := String.mk (s.data.map Char.toUpper)

/-- Python `str.lower()` modelled character-wise (ASCII). -/
def pyLower (s : String) : String := String.mk (s.data.map Char.toLower)

/-- Truthiness of a Python `Optional[str]`: `None` and the empty string are
falsy, every other string is truthy. -/
def strTruthy : Option String → Bool
  | some s => s != ""
  | none => false

/-- Does `sub` occur as a contiguous run inside the character list?  Models
Python substring containment (`sub in s`). -/
def containsSubList (sub : List Char) : List Char → Bool
  | [] => List.isPrefixOf sub []
  | c :: cs => List.isPrefixOf sub (c :: cs) || containsSubList sub cs

/-- Python `sub in s` on strings. -/
def containsSub (s sub : String) : Bool := containsSubList sub.data s.data

/-- A value held by the flattened settings mapping: the file parser produces
strings, booleans or numbers (numbers modelled as integers). -/
inductive Value : Type
  | vStr (s : String)
  | vBool (b : Bool)
  | vInt (n : Int)
  deriving DecidableEq

/-- Python truthiness of a mapping value: empty string, `False` and `0` are
falsy. -/
def Value.truthy : Value → Bool
  | .vStr s => s != ""
  | .vBool b => b
  | .vInt n => n != 0

/-- Python runtime errors this module can raise. -/
inductive PyError : Type
  | typeError (msg : String)
  | nameError (msg : String)
  | attributeError (msg : String)
  | requiredConfigKey (msg : String)
  | parseError (msg : String)
  deriving DecidableEq

/-- The process environment: variable name to (possibly empty) string value. -/
abbrev Env := List (String × String)

/-- `os.environ.get(k)`. -/
def envLookup (env : Env) (k : String) : Option String := List.lookup k env

/-- The flattened settings mapping held in `self._config`. -/
abbrev Mapping := List (String × Value)

/-- Python dict assignment `d[k] = v`: the new binding shadows any older one. -/
def dictInsert (m : Mapping) (k : String) (v : Value) : Mapping := (k, v) :: m

/-- Python `d.get(k)`: the most recent binding for `k`, if any. -/
def dictGet (m : Mapping) (k : String) : Option Value := List.lookup k m

/-- `key.upper().replace(".", "_")` from `Config.get_env_value`.  Since the
replaced pattern is the single character `.`, the `upper`-then-`replace`
composition acts character-wise. -/
def envKeyTransform (key : String) : String :=
  String.mk (key.data.map (fun c => if c == '.' then '_' else c.toUpper))

/-- `Config.get_env_value(key, default)`: return the environment value of the
literal key if truthy, else of the uppercase/underscore key if truthy, else
the default. -/
def get_env_value (env : Env) (key : String) (default : Option String) :
    Option String :=
  if strTruthy (envLookup env key) then envLookup env key
  else if strTruthy (envLookup env (envKeyTransform key)) then
    envLookup env (envKeyTransform key)
  else default

/-- The state of a `Config` instance: its `_config` mapping.  The live
environment is not part of the state; each accessor receives it as an
argument, modelling that `os.environ` is consulted fresh on every lookup. -/
structure Config : Type where
  _config : Mapping
  deriving DecidableEq

/-- `Config.get(key, default)`: return the environment value if truthy, else
the stored mapping value for the literal `key` if truthy, else the default. -/
def Config.get (cfg : Config) (env : Env) (key : String)
    (default : Option Value) : Option Value :=
  if strTruthy (get_env_value env key none) then
    (get_env_value env key none).map Value.vStr
  else
    match dictGet cfg._config key with
    | some w => if w.truthy then some w else default
    | none => default

/-- `Config.get_required(key)`: raise `RequiredConfigKeyException` when
`get(key)` is `None`. -/
def Config.get_required (cfg : Config) (env : Env) (key : String) :
    Except PyError Value :=
  match Config.get cfg env key none with
  | some v => Except.ok v
  | none =>
      Except.error (PyError.requiredConfigKey
        ("Required key [" ++ key ++ "] not found in config"))

/-- `Config.get_boolean(key, default)`: return a boolean value as-is; on a
truthy value call `v.lower() == "true"`, which succeeds for strings and
raises `AttributeError` for numbers; otherwise return the default. -/
def Config.get_boolean (cfg : Config) (env : Env) (key : String)
    (default : Option Bool) : Except PyError (Option Bool) :=
  match Config.get cfg env key none with
  | some (.vBool b) => Except.ok (some b)
  | some (.vStr s) =>
      if s != "" then Except.ok (some (pyLower s == "true"))
      else Except.ok default
  | some (.vInt n) =>
      if n != 0 then
        Except.error (PyError.attributeError
          "int object has no attribute lower")
      else Except.ok default
  | none => Except.ok default

/-- `Config.get_boolean_required(key)`: `get_required` then
`v.lower() == "true"`, which raises `AttributeError` unless the resolved
value is a string (booleans and numbers have no `lower`). -/
def Config.get_boolean_required (cfg : Config) (env : Env) (key : String) :
    Except PyError Bool :=
  match Config.get_required cfg env key with
  | Except.error e => Except.error e
  | Except.ok (.vStr s) => Except.ok (pyLower s == "true")
  | Except.ok (.vBool _) =>
      Except.error (PyError.attributeError
        "bool object has no attribute lower")
  | Except.ok (.vInt _) =>
      Except.error (PyError.attributeError
        "int object has no attribute lower")

/-- `Config.get_profile()`: the environment value of `application.profile`,
lowercased, defaulting to `"local"`.  By design it reads only the
environment, never the settings mapping: the function takes no `Config`. -/
def get_profile (env : Env) : String :=
  match get_env_value env "application.profile" none with
  | some p => if p != "" then pyLower p else "local"
  | none => "local"

/-- `Config.get_dataset_name(base_name)`: a function of the resolved
profile only. -/
def get_dataset_name (env : Env) (base_name : String) : String :=
  if (["prod", "staging", "ci"] : List String).contains (get_profile env) then
    base_name
  else if (["local"] : List String).contains (get_profile env) then
    base_name ++ "_qa"
  else
    base_name ++ "_" ++ get_profile env

/-- Outcome of `FileUtil.load_toml_to_dict` composed with
`DictUtil.flatten_dict` (external collaborators) at a path: flattened
dot-joined entries, `FileNotFoundError`, or a parse failure. -/
inductive LoadResult : Type
  | found (entries : List (String × Value))
  | notFound
  | malformed (msg : String)

/-- The file system as seen through the loader collaborators. -/
abbrev FileSystem := String → LoadResult

/-- `build_path(filename, rootdir)`: after normalizing and stripping a
leading separator, its return line reads `cls.root_folder`, but `cls` is an
undefined name in this module-level function, so every call raises
`NameError` (`os.path.normpath` and the prefix checks on the earlier lines
are total and cannot fail first). -/
def build_path (filename rootdir : String) : Except PyError String :=
  let normalized := filename
  let _ := if !(rootdir.data.isPrefixOf normalized.data) then
      (if ['/'].isPrefixOf normalized.data || ['\\'].isPrefixOf normalized.data
       then String.mk (normalized.data.drop 1) else normalized)
    else normalized
  Except.error (PyError.nameError "name cls is not defined")

/-- The merge loop of `_populate_with_values_from_yml`:
`for k, v in flatten_dict(values).items(): self._config[k.lower()] = v`. -/
def mergeEntries (m : Mapping) (entries : List (String × Value)) : Mapping :=
  entries.foldl (fun acc kv => dictInsert acc (pyLower kv.1) kv.2) m

/-- Result of one `_populate_with_values_from_yml` call: the updated mapping
and whether a file-not-found warning was emitted. -/
structure PopResult : Type where
  config : Mapping
  warned : Bool
  deriving DecidableEq

/-- `Config._populate_with_values_from_yml(config_file, rootdir)` as written:
build the full path (which raises `NameError`, outside the `try` block), load
and merge the flattened entries, catching only `FileNotFoundError` — with the
warning suppressed when `"application-local.yml"` occurs in `config_file` —
while any parse failure propagates. -/
def populate_with_values_from_yml (fs : FileSystem) (m : Mapping)
    (config_file rootdir : String) : Except PyError PopResult :=
  match build_path config_file rootdir with
  | Except.error e => Except.error e
  | Except.ok config_fullpath =>
      match fs config_fullpath with
      | LoadResult.found entries => Except.ok ⟨mergeEntries m entries, false⟩
      | LoadResult.notFound =>
          if containsSub config_file "application-local.yml" then
            Except.ok ⟨m, false⟩
          else Except.ok ⟨m, true⟩
      | LoadResult.malformed msg => Except.error (PyError.parseError msg)

/-- A call site of `_populate_with_values_from_yml`, with Python arity
checking: the method requires both `config_file` and `rootdir`, so a call
that supplies no `rootdir` raises `TypeError` before the body runs. -/
def populateCall (fs : FileSystem) (m : Mapping) (config_file : String)
    (rootdirArg : Option String) : Except PyError PopResult :=
  match rootdirArg with
  | none =>
      Except.error (PyError.typeError
        "populate missing 1 required positional argument rootdir")
  | some rootdir => populate_with_values_from_yml fs m config_file rootdir

/-- `Config.__init__`: set `_config = {}`, call
`self._populate_with_values_from_yml("resources/application.yml")` — one
argument, no `rootdir` — then resolve the profile and call it again for
`resources/application-{profile}.yml`, again without `rootdir`. -/
def Config.init (fs : FileSystem) (env : Env) : Except PyError Config :=
  let m : Mapping := []
  match populateCall fs m "resources/application.yml" none with
  | Except.error e => Except.error e
  | Except.ok r1 =>
      match populateCall fs r1.config
          ("resources/application-" ++ get_profile env ++ ".yml") none with
      | Except.error e => Except.error e
      | Except.ok r2 => Except.ok ⟨r2.config⟩

/-! ## Helper lemmas -/

/-- `get_env_value` with default `None` only ever returns a truthy string. -/
theorem get_env_value_none_truthy (env : Env) (key : String) (v : String)
    (h : get_env_value env key none = some v) : v != "" := by
  unfold get_env_value at h
  split at h
  · rename_i h1
    rw [h] at h1
    simpa [strTruthy] using h1
  · split at h
    · rename_i h2
      rw [h] at h2
      simpa [strTruthy] using h2
    · exact absurd h (by simp)

/-- Every entry of `mergeEntries m entries` either was already in `m` or
carries the lowercased key of some source entry. -/
theorem mem_mergeEntries (entries : List (String × Value)) (m : Mapping)
    (p : String × Value) (hp : p ∈ mergeEntries m entries) :
    p ∈ m ∨ ∃ q ∈ entries, p.1 = pyLower q.1 := by
  induction entries generalizing m with
  | nil => exact Or.inl hp
  | cons e es ih =>
    have hstep : mergeEntries m (e :: es)
        = mergeEntries (dictInsert m (pyLower e.1) e.2) es := rfl
    rw [hstep] at hp
    rcases ih (dictInsert m (pyLower e.1) e.2) hp with h | ⟨q, hq, hql⟩
    · unfold dictInsert at h
      rcases List.mem_cons.mp h with h1 | h2
      · exact Or.inr ⟨e, List.mem_cons_self e es, by rw [h1]⟩
      · exact Or.inl h2
    · exact Or.inr ⟨q, List.mem_cons_of_mem e hq, hql⟩

/-! ## Claims -/

/-- C1: for every key with a non-empty environment value (literal or
uppercase/underscore form) and a non-empty value in the merged mapping,
`get(key, default)` returns the environment value: the environment result is
computed first and returned whenever truthy, before the mapping is
consulted. -/
theorem get_env_wins (cfg : Config) (env : Env) (key : String)
    (default : Option Value) (v : String) (w : Value)
    (henv : get_env_value env key none = some v)
    (hw : dictGet cfg._config key = some w) (hwt : w.truthy = true) :
    Config.get cfg env key default = some (Value.vStr v) := by
  have hv : strTruthy (get_env_value env key none) = true := by
    rw [henv]
    simpa [strTruthy] using get_env_value_none_truthy env key v henv
  unfold Config.get
  rw [if_pos hv, henv]
  rfl

/-- Witness for C1: environment value `"envv"` shadows file value
`"file"`. -/
theorem get_env_wins_witness :
    Config.get ⟨[("a.b", Value.vStr "file")]⟩ [("a.b", "envv")] "a.b" none
      = some (Value.vStr "envv") :=
  get_env_wins ⟨[("a.b", Value.vStr "file")]⟩ [("a.b", "envv")] "a.b" none
    "envv" (Value.vStr "file") (by decide) (by decide) (by decide)

/-- C10: every construction raises `TypeError` before any settings file is
consulted — the constructor passes only `config_file` to a method requiring
`rootdir` as well — so `Config.init` never returns an instance, for every
file system and every environment. -/
theorem init_always_type_error (fs : FileSystem) (env : Env) :
    Config.init fs env = Except.error (PyError.typeError
      "populate missing 1 required positional argument rootdir") := rfl

/-- A file system where both the base file and the local profile file exist
and define the same key with different values. -/
def fsBoth : FileSystem := fun path =>
  if path = "resources/application.yml" then
    LoadResult.found [("shared.key", Value.vStr "base")]
  else if path = "resources/application-local.yml" then
    LoadResult.found [("shared.key", Value.vStr "profile")]
  else LoadResult.notFound

/-- C2: even when both settings files exist and overlap, construction raises
`TypeError` before loading or merging either, so no load-then-merge order is
ever realized. -/
theorem init_never_merges :
    Config.init fsBoth [] = Except.error (PyError.typeError
      "populate missing 1 required positional argument rootdir") := rfl

/-- A file system with no settings files at all. -/
def fsEmpty : FileSystem := fun _ => LoadResult.notFound

/-- C4: a missing settings file is fatal in the code as written: construction
raises `TypeError` at the first populate call, and even a direct,
correctly-supplied call of `_populate_with_values_from_yml` on a missing
file raises `NameError` in `build_path` before the `FileNotFoundError`
handler can run. -/
theorem missing_file_fatal :
    Config.init fsEmpty [] = Except.error (PyError.typeError
      "populate missing 1 required positional argument rootdir") ∧
    populate_with_values_from_yml fsEmpty [] "resources/application.yml" "/app"
      = Except.error (PyError.nameError "name cls is not defined") :=
  ⟨rfl, rfl⟩

/-- C3 counterexample: with `"a"` stored (the lowercase form of `"A"`) and
an empty environment, `get("A")` misses the mapping and returns the default,
so a mixed-case key does not retrieve a value stored from a file. -/
theorem mixed_case_get_misses :
    dictGet [("a", Value.vStr "x")] (pyLower "A") = some (Value.vStr "x") ∧
    Config.get ⟨[("a", Value.vStr "x")]⟩ [] "A" none = none :=
  ⟨by decide, by decide⟩

/-- C3 (amended): all keys stored by the merge loop are lowercased at merge
time, but `get(key, default)` looks up the literal `key` — not
`key.lower()` — in the mapping when the environment yields nothing. -/
theorem merge_lowercases_get_literal (entries : List (String × Value))
    (cfg : Config) (env : Env) (key : String) (default : Option Value)
    (hm : cfg._config = mergeEntries [] entries)
    (henv : strTruthy (get_env_value env key none) = false) :
    (∀ p ∈ cfg._config, ∃ q ∈ entries, p.1 = pyLower q.1) ∧
    Config.get cfg env key default =
      (match dictGet cfg._config key with
       | some w => if w.truthy then some w else default
       | none => default) := by
  constructor
  · intro p hp
    rw [hm] at hp
    rcases mem_mergeEntries entries [] p hp with h | h
    · exact absurd h (List.not_mem_nil p)
    · exact h
  · unfold Config.get
    rw [if_neg (by rw [henv]; exact Bool.false_ne_true)]

/-- Witness for C3 (amended): the merged store of `[("A.b", "x")]` holds key
`"a.b"`, and the lowercase lookup `get("a.b")` retrieves it. -/
theorem merge_lowercases_get_literal_witness :
    Config.get ⟨mergeEntries [] [("A.b", Value.vStr "x")]⟩ [] "a.b" none
      = some (Value.vStr "x") := by
  have h := merge_lowercases_get_literal [("A.b", Value.vStr "x")]
    ⟨mergeEntries [] [("A.b", Value.vStr "x")]⟩ [] "a.b" none rfl (by decide)
  rw [h.2]
  decide

/-- C5 counterexample: `get_boolean` raises `AttributeError` on a stored
numeric value, and `get_boolean_required` raises `AttributeError` on a
stored boolean value, so boolean conversion can fail. -/
theorem get_boolean_raises :
    Config.get_boolean ⟨[("k", Value.vInt 1)]⟩ [] "k" none
      = Except.error (PyError.attributeError
          "int object has no attribute lower") ∧
    Config.get_boolean_required ⟨[("k", Value.vBool true)]⟩ [] "k"
      = Except.error (PyError.attributeError
          "bool object has no attribute lower") :=
  ⟨rfl, rfl⟩

/-- C5 (amended): `get_boolean` returns a boolean value as-is, converts a
non-empty string value to `lower(s) == "true"`, and returns the default when
nothing resolves; but it raises `AttributeError` on a truthy numeric value,
and `get_boolean_required` raises `AttributeError` whenever the resolved
value is not a string, booleans and numbers alike. -/
theorem get_boolean_amended (cfg : Config) (env : Env) (key : String)
    (default : Option Bool) (b : Bool) (s : String) (n : Int) :
    (Config.get cfg env key none = some (Value.vBool b) →
       Config.get_boolean cfg env key default = Except.ok (some b)) ∧
    (Config.get cfg env key none = some (Value.vStr s) → s ≠ "" →
       Config.get_boolean cfg env key default
         = Except.ok (some (pyLower s == "true"))) ∧
    (Config.get cfg env key none = none →
       Config.get_boolean cfg env key default = Except.ok default) ∧
    (Config.get cfg env key none = some (Value.vInt n) → n ≠ 0 →
       Config.get_boolean cfg env key default
         = Except.error (PyError.attributeError
             "int object has no attribute lower")) ∧
    (Config.get cfg env key none = some (Value.vBool b) →
       Config.get_boolean_required cfg env key
         = Except.error (PyError.attributeError
             "bool object has no attribute lower")) ∧
    (Config.get cfg env key none = some (Value.vInt n) →
       Config.get_boolean_required cfg env key
         = Except.error (PyError.attributeError
             "int object has no attribute lower")) := by
  refine ⟨?_, ?_, ?_, ?_, ?_, ?_⟩
  · intro h
    simp [Config.get_boolean, h]
  · intro h hs
    simp [Config.get_boolean, h, hs]
  · intro h
    simp [Config.get_boolean, h]
  · intro h hn
    simp [Config.get_boolean, h, hn]
  · intro h
    simp [Config.get_boolean_required, Config.get_required, h]
  · intro h
    simp [Config.get_boolean_required, Config.get_required, h]

/-- Witness for C5 (amended): a stored value `"TRUE"` converts to `true`
case-insensitively. -/
theorem get_boolean_amended_witness :
    Config.get_boolean ⟨[("k", Value.vStr "TRUE")]⟩ [] "k" none
      = Except.ok (some true) := by
  have h := (get_boolean_amended ⟨[("k", Value.vStr "TRUE")]⟩ [] "k" none
    true "TRUE" 1).2.1
  rw [h (by decide) (by decide)]
  rfl

/-- C6: when the environment yields nothing for `key` and the stored file
value for `key` is falsy (empty string, `False`, or `0`), `get(key, default)`
treats it as absent and returns the default, for every default. -/
theorem falsy_file_value_default (cfg : Config) (env : Env) (key : String)
    (default : Option Value) (v : Value)
    (henv : get_env_value env key none = none)
    (hv : dictGet cfg._config key = some v) (hft : v.truthy = false) :
    Config.get cfg env key default = default := by
  unfold Config.get
  rw [henv]
  simp [strTruthy, hv, hft]

/-- Witness for C6: a stored empty string is never retrieved; the default
comes back instead. -/
theorem falsy_file_value_default_witness :
    Config.get ⟨[("k", Value.vStr "")]⟩ [] "k" (some (Value.vStr "d"))
      = some (Value.vStr "d") :=
  falsy_file_value_default ⟨[("k", Value.vStr "")]⟩ [] "k"
    (some (Value.vStr "d")) (Value.vStr "") (by decide) (by decide) (by decide)

/-- C7: `get_env_value(key, default)` returns the literal environment value
when present and non-empty; otherwise the value of the uppercase key with
every dot replaced by an underscore, when present and non-empty; otherwise
the caller-supplied default. -/
theorem get_env_value_spec (env : Env) (key : String) (default : Option String)
    (v w : String) :
    (envLookup env key = some v → v ≠ "" →
       get_env_value env key default = some v) ∧
    (strTruthy (envLookup env key) = false →
       envLookup env (envKeyTransform key) = some w → w ≠ "" →
       get_env_value env key default = some w) ∧
    (strTruthy (envLookup env key) = false →
       strTruthy (envLookup env (envKeyTransform key)) = false →
       get_env_value env key default = default) := by
  refine ⟨?_, ?_, ?_⟩
  · intro h hv
    unfold get_env_value
    rw [h]
    simp [strTruthy, hv]
  · intro h1 h2 hw
    unfold get_env_value
    rw [h1, h2]
    simp [strTruthy, hw]
  · intro h1 h2
    unfold get_env_value
    rw [h1, h2]
    simp

/-- Witness for C7: with only `A_B_C` set, the dotted key `a.b.c` resolves
through the uppercase/underscore alias. -/
theorem get_env_value_spec_witness :
    get_env_value [("A_B_C", "envval")] "a.b.c" none = some "envval" :=
  (get_env_value_spec [("A_B_C", "envval")] "a.b.c" none "x" "envval").2.1
    (by decide) (by decide) (by decide)

/-- C8: the profile key `application.profile` has `APPLICATION_PROFILE` as
its environment alias; `get_profile` returns the lowercased environment
value when set and non-empty and the literal `"local"` otherwise, reading
only the environment (it takes no `Config` state). -/
theorem get_profile_spec (env : Env) (p : String) :
    envKeyTransform "application.profile" = "APPLICATION_PROFILE" ∧
    (get_env_value env "application.profile" none = some p →
       get_profile env = pyLower p) ∧
    (get_env_value env "application.profile" none = none →
       get_profile env = "local") := by
  refine ⟨by decide, ?_, ?_⟩
  · intro h
    have hp : p != "" := get_env_value_none_truthy env "application.profile" p h
    unfold get_profile
    rw [h]
    simp only [hp, if_true]
  · intro h
    unfold get_profile
    rw [h]

/-- Witness for C8: environment value `DeV` yields profile `dev`. -/
theorem get_profile_spec_witness :
    get_profile [("APPLICATION_PROFILE", "DeV")] = "dev" := by
  rw [(get_profile_spec [("APPLICATION_PROFILE", "DeV")] "DeV").2.1 (by decide)]
  decide

/-- C9: `get_dataset_name(baseName)` depends only on the resolved profile
and returns `baseName` unchanged for profiles `prod`, `staging` and `ci`,
`baseName ++ "_qa"` for profile `local`, and `baseName ++ "_" ++ profile`
for any other profile. -/
theorem get_dataset_name_spec (env env2 : Env) (base : String) :
    (get_profile env = get_profile env2 →
       get_dataset_name env base = get_dataset_name env2 base) ∧
    ((get_profile env = "prod" ∨ get_profile env = "staging" ∨
        get_profile env = "ci") →
       get_dataset_name env base = base) ∧
    (get_profile env = "local" →
       get_dataset_name env base = base ++ "_qa") ∧
    (get_profile env ≠ "prod" → get_profile env ≠ "staging" →
       get_profile env ≠ "ci" → get_profile env ≠ "local" →
       get_dataset_name env base = base ++ "_" ++ get_profile env) := by
  refine ⟨?_, ?_, ?_, ?_⟩
  · intro h
    unfold get_dataset_name
    rw [h]
  · intro h
    rcases h with h | h | h <;> simp [get_dataset_name, h]
  · intro h
    simp [get_dataset_name, h]
  · intro h1 h2 h3 h4
    simp [get_dataset_name, h1, h2, h3, h4]

/-- Witness for C9: profile `dev` yields dataset `x_dev`. -/
theorem get_dataset_name_spec_witness :
    get_dataset_name [("APPLICATION_PROFILE", "dev")] "x" = "x_dev" := by
  rw [(get_dataset_name_spec [("APPLICATION_PROFILE", "dev")] [] "x").2.2.2
    (by decide) (by decide) (by decide) (by decide)]
  decide

end ConfigProfile
